import Mathlib

/-!
Shallow embedding of the favorite-annotated list hooks of `heavymath_lib`.

Every hook of the repository follows one template: fetch an entity list from
the sports API, fetch the wallet's favorites for a fixed
(category, subcategory, type) scope, annotate each entity with a `favorited`
boolean by membership of its stringified id in the favorites snapshot, and
expose a `setFavorited` toggle that either issues an add mutation (with the
scope triple and stringified id) or looks up the matching favorite record and
issues a remove mutation keyed by that record's own handle.

The embedding models a hook as a pure function of the two query results.  The
sports-API query is a `QueryResult` (optional payload plus loading/error
status); the favorites source is a function from a `FavoriteFilter` to a
`UseFavoritesResult`, so that the scope the hook passes to it is part of the
model.  The asynchronous mutations of `setFavorited` are modelled by their
call trace: the function returns the list of mutation invocations it issues,
in order.  Three representative hooks are embedded: basketball leagues
(top-level numeric `id`), football leagues (nested `league.id`), and MMA
categories (string-valued entities used verbatim as ids).
-/

/-- Payload shape delivered by a sports-API query: the hooks read
`query.data?.response ?? []`, so `data` carries a record with a `response`
list. -/
structure ApiResponse (α : Type) where
  response : List α
deriving Repr, DecidableEq

/-- Result of a sports-API query hook: optional data plus loading and error
status (`error` is `Option String`, standing for `Error | null`). -/
structure QueryResult (α : Type) where
  data : Option (ApiResponse α)
  isLoading : Bool
  isError : Bool
  error : Option String
deriving Repr, DecidableEq

/-- A persisted favorite record, as delivered by the indexer client: an opaque
handle `id`, the stringified entity id `itemId`, and the scope triple. -/
structure WalletFavoriteData where
  id : Nat
  itemId : String
  category : String
  subcategory : String
  type : String
deriving Repr, DecidableEq

/-- The (category, subcategory, type) scope triple passed to the favorites
source. -/
structure FavoriteFilter where
  category : String
  subcategory : String
  type : String
deriving Repr, DecidableEq

/-- Result of the favorites source (`useFavorites`): the snapshot, its loading
and error status, and the pending flags of the two mutations.  The hooks
destructure only `favorites`, `isLoading` and the two mutation objects; the
`isError`/`error` fields exist on the source but are never read. -/
structure UseFavoritesResult where
  favorites : List WalletFavoriteData
  isLoading : Bool
  isError : Bool
  error : Option String
  addFavoritePending : Bool
  removeFavoritePending : Bool
deriving Repr, DecidableEq

/-- Argument object of the add-favorite mutation: the scope triple plus the
stringified entity id. -/
structure AddFavoritePayload where
  category : String
  subcategory : String
  type : String
  id : String
deriving Repr, DecidableEq

/-- One mutation invocation issued by `setFavorited`: either an add with its
payload object, or a remove keyed by a favorite record's own handle. -/
inductive MutationCall where
  | add (payload : AddFavoritePayload)
  | remove (handle : Nat)
deriving Repr, DecidableEq

/-- A basketball league entity: identified by its top-level numeric `id`. -/
structure BasketballLeagueResponse where
  id : Nat
  name : String
deriving Repr, DecidableEq

/-- Basketball league annotated with favorite status. -/
structure BasketballLeagueWithFavorite extends BasketballLeagueResponse where
  favorited : Bool
deriving Repr, DecidableEq

/-- Return shape of the basketball-leagues hook. -/
structure UseBasketballLeaguesResult where
  leagues : List BasketballLeagueWithFavorite
  isLoading : Bool
  isError : Bool
  error : Option String
  favoritesLoading : Bool
  addFavoritePending : Bool
  removeFavoritePending : Bool
deriving Repr, DecidableEq

namespace BasketballLeagues

/-- `FAVORITES_CATEGORY` of `useBasketballLeagues.ts`. -/
def FAVORITES_CATEGORY : String := "sports"

/-- `FAVORITES_SUBCATEGORY` of `useBasketballLeagues.ts`. -/
def FAVORITES_SUBCATEGORY : String := "basketball"

/-- `FAVORITES_TYPE` of `useBasketballLeagues.ts`. -/
def FAVORITES_TYPE : String := "league"

/-- The fixed scope triple the hook passes to `useFavorites`. -/
def favoritesScope : FavoriteFilter :=
  { category := FAVORITES_CATEGORY
    subcategory := FAVORITES_SUBCATEGORY
    type := FAVORITES_TYPE }

/-- `useBasketballLeagues`: calls the favorites source at the fixed scope,
builds the set of favorited item ids, annotates each league of
`leaguesQuery.data?.response ?? []` with membership of `String(league.id)`,
and assembles the result record exactly as the source does. -/
def useBasketballLeagues
    (leaguesQuery : QueryResult BasketballLeagueResponse)
    (useFavoritesFn : FavoriteFilter → UseFavoritesResult) :
    UseBasketballLeaguesResult :=
  let fav := useFavoritesFn favoritesScope
  let favoritedIds := fav.favorites.map (fun f => f.itemId)
  let response := (leaguesQuery.data.map (fun d => d.response)).getD []
  { leagues := response.map (fun league =>
      { toBasketballLeagueResponse := league
        favorited := favoritedIds.contains (toString league.id) })
    isLoading := leaguesQuery.isLoading || fav.isLoading
    isError := leaguesQuery.isError
    error := leaguesQuery.error
    favoritesLoading := fav.isLoading
    addFavoritePending := fav.addFavoritePending
    removeFavoritePending := fav.removeFavoritePending }

/-- `setFavorited` of `useBasketballLeagues`, modelled by its mutation call
trace: toggling on issues one add with the scope triple and `String(leagueId)`;
toggling off finds the first favorite whose `itemId` equals `String(leagueId)`
in the current snapshot and issues one remove with that record's handle, or
does nothing when no record matches. -/
def setFavorited (favorites : List WalletFavoriteData) (leagueId : Nat)
    (favorited : Bool) : List MutationCall :=
  let itemId := toString leagueId
  if favorited then
    [MutationCall.add
      { category := FAVORITES_CATEGORY
        subcategory := FAVORITES_SUBCATEGORY
        type := FAVORITES_TYPE
        id := itemId }]
  else
    match favorites.find? (fun f => f.itemId == itemId) with
    | some favorite => [MutationCall.remove favorite.id]
    | none => []

end BasketballLeagues

/-- A football league entity's nested `league` object. -/
structure FootballLeagueInfo where
  id : Nat
  name : String
deriving Repr, DecidableEq

/-- A football league entity: identified by the nested `league.id`. -/
structure FootballLeagueResponse where
  league : FootballLeagueInfo
deriving Repr, DecidableEq

/-- Football league annotated with favorite status. -/
structure FootballLeagueWithFavorite extends FootballLeagueResponse where
  favorited : Bool
deriving Repr, DecidableEq

/-- Return shape of the football-leagues hook. -/
structure UseFootballLeaguesResult where
  leagues : List FootballLeagueWithFavorite
  isLoading : Bool
  isError : Bool
  error : Option String
  favoritesLoading : Bool
  addFavoritePending : Bool
  removeFavoritePending : Bool
deriving Repr, DecidableEq

namespace FootballLeagues

/-- `FAVORITES_CATEGORY` of the football-leagues hook. -/
def FAVORITES_CATEGORY : String := "sports"

/-- `FAVORITES_SUBCATEGORY` of the football-leagues hook. -/
def FAVORITES_SUBCATEGORY : String := "football"

/-- `FAVORITES_TYPE` of the football-leagues hook. -/
def FAVORITES_TYPE : String := "league"

/-- The fixed scope triple the football-leagues hook passes to
`useFavorites`. -/
def favoritesScope : FavoriteFilter :=
  { category := FAVORITES_CATEGORY
    subcategory := FAVORITES_SUBCATEGORY
    type := FAVORITES_TYPE }

/-- `useFootballLeagues`: identical template, except the id is the nested
`league.league.id`. -/
def useFootballLeagues
    (leaguesQuery : QueryResult FootballLeagueResponse)
    (useFavoritesFn : FavoriteFilter → UseFavoritesResult) :
    UseFootballLeaguesResult :=
  let fav := useFavoritesFn favoritesScope
  let favoritedIds := fav.favorites.map (fun f => f.itemId)
  let response := (leaguesQuery.data.map (fun d => d.response)).getD []
  { leagues := response.map (fun league =>
      { toFootballLeagueResponse := league
        favorited := favoritedIds.contains (toString league.league.id) })
    isLoading := leaguesQuery.isLoading || fav.isLoading
    isError := leaguesQuery.isError
    error := leaguesQuery.error
    favoritesLoading := fav.isLoading
    addFavoritePending := fav.addFavoritePending
    removeFavoritePending := fav.removeFavoritePending }

end FootballLeagues

/-- An MMA category annotated with favorite status: the entity itself is a
string (the category name), used verbatim as the item id. -/
structure MmaCategoryWithFavorite where
  name : String
  favorited : Bool
deriving Repr, DecidableEq

/-- Return shape of the MMA-categories hook. -/
structure UseMmaCategoriesResult where
  categories : List MmaCategoryWithFavorite
  isLoading : Bool
  isError : Bool
  error : Option String
  favoritesLoading : Bool
  addFavoritePending : Bool
  removeFavoritePending : Bool
deriving Repr, DecidableEq

namespace MmaCategories

/-- `FAVORITES_CATEGORY` of `useMmaCategories.ts`. -/
def FAVORITES_CATEGORY : String := "sports"

/-- `FAVORITES_SUBCATEGORY` of `useMmaCategories.ts`. -/
def FAVORITES_SUBCATEGORY : String := "mma"

/-- `FAVORITES_TYPE` of `useMmaCategories.ts`. -/
def FAVORITES_TYPE : String := "category"

/-- The fixed scope triple the MMA-categories hook passes to
`useFavorites`. -/
def favoritesScope : FavoriteFilter :=
  { category := FAVORITES_CATEGORY
    subcategory := FAVORITES_SUBCATEGORY
    type := FAVORITES_TYPE }

/-- `useMmaCategories`: same template; categories are strings, so the raw
string value is the id (no `String(...)` coercion). -/
def useMmaCategories
    (categoriesQuery : QueryResult String)
    (useFavoritesFn : FavoriteFilter → UseFavoritesResult) :
    UseMmaCategoriesResult :=
  let fav := useFavoritesFn favoritesScope
  let favoritedIds := fav.favorites.map (fun f => f.itemId)
  let response := (categoriesQuery.data.map (fun d => d.response)).getD []
  { categories := response.map (fun categoryName =>
      { name := categoryName
        favorited := favoritedIds.contains categoryName })
    isLoading := categoriesQuery.isLoading || fav.isLoading
    isError := categoriesQuery.isError
    error := categoriesQuery.error
    favoritesLoading := fav.isLoading
    addFavoritePending := fav.addFavoritePending
    removeFavoritePending := fav.removeFavoritePending }

/-- `setFavorited` of `useMmaCategories`, modelled by its mutation call trace;
the category name is used directly as the item id. -/
def setFavorited (favorites : List WalletFavoriteData) (categoryName : String)
    (favorited : Bool) : List MutationCall :=
  if favorited then
    [MutationCall.add
      { category := FAVORITES_CATEGORY
        subcategory := FAVORITES_SUBCATEGORY
        type := FAVORITES_TYPE
        id := categoryName }]
  else
    match favorites.find? (fun f => f.itemId == categoryName) with
    | some favorite => [MutationCall.remove favorite.id]
    | none => []

end MmaCategories

/-- Sample favorite record, mirroring the repository's test fixture
`{id: 1, itemId: "33", ...}`. -/
def sampleFavorite : WalletFavoriteData :=
  { id := 1, itemId := "33", category := "sports"
    subcategory := "basketball", type := "league" }

/-- A second favorite record with the same `itemId` but a different handle,
for duplicate-snapshot scenarios. -/
def sampleFavoriteDup : WalletFavoriteData :=
  { id := 2, itemId := "33", category := "sports"
    subcategory := "basketball", type := "league" }

/-- Sample basketball league with id 33. -/
def sampleLeague33 : BasketballLeagueResponse := { id := 33, name := "NBA" }

/-- Sample basketball league with id 34. -/
def sampleLeague34 : BasketballLeagueResponse := { id := 34, name := "LNB" }

/-- Sample favorites-source result holding exactly `sampleFavorite`. -/
def sampleFavResult : UseFavoritesResult :=
  { favorites := [sampleFavorite], isLoading := false, isError := false
    error := none, addFavoritePending := false
    removeFavoritePending := false }

/-- Sample favorites source delivering `sampleFavResult` at every scope. -/
def sampleUseFavoritesFn : FavoriteFilter → UseFavoritesResult :=
  fun _ => sampleFavResult

/-- Sample favorites source whose favorites fetch failed: empty snapshot,
error status set. -/
def failedFavoritesFn : FavoriteFilter → UseFavoritesResult :=
  fun _ =>
    { favorites := [], isLoading := false, isError := true
      error := some "favorites fetch failed", addFavoritePending := false
      removeFavoritePending := false }

/-- Sample favorites source whose favorites fetch succeeded with an empty
snapshot. -/
def emptyFavoritesFn : FavoriteFilter → UseFavoritesResult :=
  fun _ =>
    { favorites := [], isLoading := false, isError := false
      error := none, addFavoritePending := false
      removeFavoritePending := false }

/-- Sample basketball-leagues query delivering leagues 33 and 34. -/
def sampleLeaguesQuery : QueryResult BasketballLeagueResponse :=
  { data := some { response := [sampleLeague33, sampleLeague34] }
    isLoading := false, isError := false, error := none }

/-- Sample basketball-leagues query with no data yet. -/
def emptyLeaguesQuery : QueryResult BasketballLeagueResponse :=
  { data := none, isLoading := false, isError := false, error := none }

/-- Sample MMA-categories query delivering two weight classes. -/
def sampleCategoriesQuery : QueryResult String :=
  { data := some { response := ["Heavyweight", "Flyweight"] }
    isLoading := false, isError := false, error := none }

/-- Sample football league with nested id 39. -/
def sampleFootballLeague : FootballLeagueResponse :=
  { league := { id := 39, name := "PL" } }

/-- Sample football-leagues query delivering one league with nested id 39. -/
def sampleFootballQuery : QueryResult FootballLeagueResponse :=
  { data := some { response := [sampleFootballLeague] }
    isLoading := false, isError := false, error := none }

/-- Membership of a string in the mapped item-id list is existence of a
matching favorite record in the snapshot. -/
theorem contains_itemId_iff (favs : List WalletFavoriteData) (s : String) :
    (favs.map (fun f => f.itemId)).contains s = true ↔
      ∃ f ∈ favs, f.itemId = s := by
  rw [List.elem_iff, List.mem_map]

/-- When some favorite of the snapshot matches the item id, `find?` returns a
matching record of the snapshot. -/
theorem find?_itemId_of_exists (favs : List WalletFavoriteData) (s : String)
    (h : ∃ f ∈ favs, f.itemId = s) :
    ∃ g, favs.find? (fun f => f.itemId == s) = some g ∧
      g ∈ favs ∧ g.itemId = s := by
  induction favs with
  | nil => simp at h
  | cons a l ih =>
    by_cases ha : a.itemId = s
    · exact ⟨a, List.find?_cons_of_pos _ (by simp [ha]),
        List.mem_cons_self a l, ha⟩
    · have h' : ∃ f ∈ l, f.itemId = s := by
        obtain ⟨f, hf, hfs⟩ := h
        rcases List.mem_cons.mp hf with rfl | hf
        · exact absurd hfs ha
        · exact ⟨f, hf, hfs⟩
      obtain ⟨g, hg, hgm, hgs⟩ := ih h'
      refine ⟨g, ?_, List.mem_cons_of_mem a hgm, hgs⟩
      rw [List.find?_cons_of_neg _ (by simp [ha])]
      exact hg

/-- `find?` over a snapshot with no match before `f` returns `f` itself. -/
theorem find?_append_first_match (l1 l2 : List WalletFavoriteData)
    (f : WalletFavoriteData) (s : String) (hf : f.itemId = s)
    (h1 : ∀ x ∈ l1, x.itemId ≠ s) :
    (l1 ++ f :: l2).find? (fun g => g.itemId == s) = some f := by
  induction l1 with
  | nil => exact List.find?_cons_of_pos _ (by simp [hf])
  | cons a t ih =>
    have ha : a.itemId ≠ s := h1 a (List.mem_cons_self a t)
    rw [List.cons_append, List.find?_cons_of_neg _ (by simp [ha])]
    exact ih (fun x hx => h1 x (List.mem_cons_of_mem a hx))

/-- C3: when the favorites snapshot holds a record whose `itemId` equals the
stringified id, `setFavorited(id, false)` issues exactly one remove mutation,
keyed by that record's own handle (its `id` field), and no add mutation. -/
theorem setFavorited_false_removes_own_handle
    (favs : List WalletFavoriteData) (leagueId : Nat)
    (h : ∃ f ∈ favs, f.itemId = toString leagueId) :
    ∃ g ∈ favs, g.itemId = toString leagueId ∧
      BasketballLeagues.setFavorited favs leagueId false =
        [MutationCall.remove g.id] ∧
      ∀ p, MutationCall.add p ∉
        BasketballLeagues.setFavorited favs leagueId false := by
  obtain ⟨g, hg, hgm, hgs⟩ := find?_itemId_of_exists favs (toString leagueId) h
  refine ⟨g, hgm, hgs, ?_, ?_⟩
  · simp [BasketballLeagues.setFavorited, hg]
  · intro p
    simp [BasketballLeagues.setFavorited, hg]

/-- Witness for C3 at the repository's own fixture: favorite
`{id := 1, itemId := "33"}` present, `setFavorited 33 false` issues
`remove 1`. -/
theorem setFavorited_false_removes_own_handle_witness :
    ∃ g ∈ [sampleFavorite], g.itemId = toString 33 ∧
      BasketballLeagues.setFavorited [sampleFavorite] 33 false =
        [MutationCall.remove g.id] ∧
      ∀ p, MutationCall.add p ∉
        BasketballLeagues.setFavorited [sampleFavorite] 33 false :=
  setFavorited_false_removes_own_handle [sampleFavorite] 33
    ⟨sampleFavorite, by decide, by decide⟩

/-- C4: when no record of the snapshot matches the stringified id,
`setFavorited(id, false)` issues no mutation at all. -/
theorem setFavorited_false_noop_when_absent
    (favs : List WalletFavoriteData) (leagueId : Nat)
    (h : ∀ f ∈ favs, f.itemId ≠ toString leagueId) :
    BasketballLeagues.setFavorited favs leagueId false = [] := by
  have hnone : favs.find? (fun f => f.itemId == toString leagueId) = none :=
    List.find?_eq_none.mpr (fun x hx => by simp [h x hx])
  simp [BasketballLeagues.setFavorited, hnone]

/-- Witness for C4: with only favorite `itemId = "33"` present,
`setFavorited 34 false` issues no mutation. -/
theorem setFavorited_false_noop_when_absent_witness :
    BasketballLeagues.setFavorited [sampleFavorite] 34 false = [] :=
  setFavorited_false_noop_when_absent [sampleFavorite] 34 (by decide)

/-- C5: `setFavorited(id, true)` issues exactly one add mutation whose payload
is the scope triple together with the stringified id, and no remove
mutation. -/
theorem setFavorited_true_issues_exact_add
    (favs : List WalletFavoriteData) (leagueId : Nat) :
    BasketballLeagues.setFavorited favs leagueId true =
      [MutationCall.add
        { category := "sports", subcategory := "basketball"
          type := "league", id := toString leagueId }] ∧
    ∀ n, MutationCall.remove n ∉
      BasketballLeagues.setFavorited favs leagueId true := by
  refine ⟨rfl, ?_⟩
  intro n
  simp [BasketballLeagues.setFavorited]

/-- C6: the add path of `setFavorited` never inspects the snapshot: toggling
on issues the add mutation even when a matching favorite already exists, and
the call trace is the same for every snapshot. -/
theorem setFavorited_true_unconditional
    (favs : List WalletFavoriteData) (leagueId : Nat)
    (h : ∃ f ∈ favs, f.itemId = toString leagueId) :
    BasketballLeagues.setFavorited favs leagueId true =
      [MutationCall.add
        { category := "sports", subcategory := "basketball"
          type := "league", id := toString leagueId }] ∧
    ∀ favs', BasketballLeagues.setFavorited favs leagueId true =
      BasketballLeagues.setFavorited favs' leagueId true := by
  exact ⟨rfl, fun favs' => rfl⟩

/-- Witness for C6: league 33 is already favorited, yet `setFavorited 33 true`
still issues the add mutation. -/
theorem setFavorited_true_unconditional_witness :
    BasketballLeagues.setFavorited [sampleFavorite] 33 true =
      [MutationCall.add
        { category := "sports", subcategory := "basketball"
          type := "league", id := toString 33 }] ∧
    ∀ favs', BasketballLeagues.setFavorited [sampleFavorite] 33 true =
      BasketballLeagues.setFavorited favs' 33 true :=
  setFavorited_true_unconditional [sampleFavorite] 33
    ⟨sampleFavorite, by decide, by decide⟩

/-- C1: for every entity list delivered by the entity query and every
favorites snapshot, the annotated list has exactly as many items, and the
i-th item's `favorited` flag is true iff some favorite record's `itemId`
equals the stringified identifier of the i-th entity — the top-level `id` for
basketball leagues, the nested `league.id` for football leagues, and the raw
string value for MMA categories. -/
theorem annotated_lists_match_favorites
    (qB : QueryResult BasketballLeagueResponse)
    (qF : QueryResult FootballLeagueResponse)
    (qM : QueryResult String)
    (uf : FavoriteFilter → UseFavoritesResult)
    (esB : List BasketballLeagueResponse)
    (esF : List FootballLeagueResponse)
    (esM : List String)
    (hB : qB.data = some { response := esB })
    (hF : qF.data = some { response := esF })
    (hM : qM.data = some { response := esM }) :
    ((BasketballLeagues.useBasketballLeagues qB uf).leagues.length =
        esB.length ∧
      ∀ (i : Nat) (a : BasketballLeagueWithFavorite)
        (l : BasketballLeagueResponse),
        (BasketballLeagues.useBasketballLeagues qB uf).leagues[i]? = some a →
        esB[i]? = some l →
        (a.favorited = true ↔
          ∃ f ∈ (uf BasketballLeagues.favoritesScope).favorites,
            f.itemId = toString l.id)) ∧
    ((FootballLeagues.useFootballLeagues qF uf).leagues.length =
        esF.length ∧
      ∀ (i : Nat) (a : FootballLeagueWithFavorite)
        (l : FootballLeagueResponse),
        (FootballLeagues.useFootballLeagues qF uf).leagues[i]? = some a →
        esF[i]? = some l →
        (a.favorited = true ↔
          ∃ f ∈ (uf FootballLeagues.favoritesScope).favorites,
            f.itemId = toString l.league.id)) ∧
    ((MmaCategories.useMmaCategories qM uf).categories.length =
        esM.length ∧
      ∀ (i : Nat) (a : MmaCategoryWithFavorite) (c : String),
        (MmaCategories.useMmaCategories qM uf).categories[i]? = some a →
        esM[i]? = some c →
        (a.favorited = true ↔
          ∃ f ∈ (uf MmaCategories.favoritesScope).favorites,
            f.itemId = c)) := by
  refine ⟨⟨?_, ?_⟩, ⟨?_, ?_⟩, ⟨?_, ?_⟩⟩
  · simp [BasketballLeagues.useBasketballLeagues, hB]
  · intro i a l hma hml
    simp only [BasketballLeagues.useBasketballLeagues, hB, Option.map_some',
      Option.getD_some] at hma
    rw [List.getElem?_map, hml] at hma
    simp only [Option.map_some', Option.some.injEq] at hma
    subst hma
    exact contains_itemId_iff _ _
  · simp [FootballLeagues.useFootballLeagues, hF]
  · intro i a l hma hml
    simp only [FootballLeagues.useFootballLeagues, hF, Option.map_some',
      Option.getD_some] at hma
    rw [List.getElem?_map, hml] at hma
    simp only [Option.map_some', Option.some.injEq] at hma
    subst hma
    exact contains_itemId_iff _ _
  · simp [MmaCategories.useMmaCategories, hM]
  · intro i a c hma hmc
    simp only [MmaCategories.useMmaCategories, hM, Option.map_some',
      Option.getD_some] at hma
    rw [List.getElem?_map, hmc] at hma
    simp only [Option.map_some', Option.some.injEq] at hma
    subst hma
    exact contains_itemId_iff _ _

/-- Witness for C1 at the sample queries and the sample favorites snapshot
(favorite `itemId = "33"`). -/
theorem annotated_lists_match_favorites_witness :
    ((BasketballLeagues.useBasketballLeagues sampleLeaguesQuery
        sampleUseFavoritesFn).leagues.length =
        [sampleLeague33, sampleLeague34].length ∧
      ∀ (i : Nat) (a : BasketballLeagueWithFavorite)
        (l : BasketballLeagueResponse),
        (BasketballLeagues.useBasketballLeagues sampleLeaguesQuery
          sampleUseFavoritesFn).leagues[i]? = some a →
        [sampleLeague33, sampleLeague34][i]? = some l →
        (a.favorited = true ↔
          ∃ f ∈ (sampleUseFavoritesFn BasketballLeagues.favoritesScope).favorites,
            f.itemId = toString l.id)) ∧
    ((FootballLeagues.useFootballLeagues sampleFootballQuery
        sampleUseFavoritesFn).leagues.length =
        [sampleFootballLeague].length ∧
      ∀ (i : Nat) (a : FootballLeagueWithFavorite)
        (l : FootballLeagueResponse),
        (FootballLeagues.useFootballLeagues sampleFootballQuery
          sampleUseFavoritesFn).leagues[i]? = some a →
        [sampleFootballLeague][i]? = some l →
        (a.favorited = true ↔
          ∃ f ∈ (sampleUseFavoritesFn FootballLeagues.favoritesScope).favorites,
            f.itemId = toString l.league.id)) ∧
    ((MmaCategories.useMmaCategories sampleCategoriesQuery
        sampleUseFavoritesFn).categories.length =
        ["Heavyweight", "Flyweight"].length ∧
      ∀ (i : Nat) (a : MmaCategoryWithFavorite) (c : String),
        (MmaCategories.useMmaCategories sampleCategoriesQuery
          sampleUseFavoritesFn).categories[i]? = some a →
        ["Heavyweight", "Flyweight"][i]? = some c →
        (a.favorited = true ↔
          ∃ f ∈ (sampleUseFavoritesFn MmaCategories.favoritesScope).favorites,
            f.itemId = c)) :=
  annotated_lists_match_favorites sampleLeaguesQuery sampleFootballQuery
    sampleCategoriesQuery sampleUseFavoritesFn
    [sampleLeague33, sampleLeague34] [sampleFootballLeague]
    ["Heavyweight", "Flyweight"] rfl rfl rfl

/-- C2: the returned `isError` and `error` are the entity query's own fields;
two favorites sources agreeing on snapshot, loading flag and pending flags —
but free to differ on their error status — give identical hook results, and a
successful entity fetch with an absent (empty) favorites snapshot reports no
error and annotates every entity as not favorited. -/
theorem error_fields_from_entity_query
    (q : QueryResult BasketballLeagueResponse)
    (uf uf' : FavoriteFilter → UseFavoritesResult)
    (hfavs : (uf BasketballLeagues.favoritesScope).favorites =
      (uf' BasketballLeagues.favoritesScope).favorites)
    (hload : (uf BasketballLeagues.favoritesScope).isLoading =
      (uf' BasketballLeagues.favoritesScope).isLoading)
    (hadd : (uf BasketballLeagues.favoritesScope).addFavoritePending =
      (uf' BasketballLeagues.favoritesScope).addFavoritePending)
    (hrem : (uf BasketballLeagues.favoritesScope).removeFavoritePending =
      (uf' BasketballLeagues.favoritesScope).removeFavoritePending) :
    (BasketballLeagues.useBasketballLeagues q uf).isError = q.isError ∧
    (BasketballLeagues.useBasketballLeagues q uf).error = q.error ∧
    BasketballLeagues.useBasketballLeagues q uf =
      BasketballLeagues.useBasketballLeagues q uf' ∧
    ((uf BasketballLeagues.favoritesScope).favorites = [] →
      ∀ a ∈ (BasketballLeagues.useBasketballLeagues q uf).leagues,
        a.favorited = false) := by
  refine ⟨rfl, rfl, ?_, ?_⟩
  · simp only [BasketballLeagues.useBasketballLeagues, hfavs, hload, hadd,
      hrem]
  · intro hempty a ha
    simp only [BasketballLeagues.useBasketballLeagues, hempty,
      List.map_nil, List.mem_map] at ha
    obtain ⟨l, _, rfl⟩ := ha
    simp

/-- Witness for C2: a failed favorites fetch (error flag set, empty snapshot)
versus a successful empty one yield the same hook result, with no error
surfaced and nothing favorited. -/
theorem error_fields_from_entity_query_witness :
    (BasketballLeagues.useBasketballLeagues sampleLeaguesQuery
      failedFavoritesFn).isError = sampleLeaguesQuery.isError ∧
    (BasketballLeagues.useBasketballLeagues sampleLeaguesQuery
      failedFavoritesFn).error = sampleLeaguesQuery.error ∧
    BasketballLeagues.useBasketballLeagues sampleLeaguesQuery
        failedFavoritesFn =
      BasketballLeagues.useBasketballLeagues sampleLeaguesQuery
        emptyFavoritesFn ∧
    ((failedFavoritesFn BasketballLeagues.favoritesScope).favorites = [] →
      ∀ a ∈ (BasketballLeagues.useBasketballLeagues sampleLeaguesQuery
        failedFavoritesFn).leagues, a.favorited = false) :=
  error_fields_from_entity_query sampleLeaguesQuery failedFavoritesFn
    emptyFavoritesFn rfl rfl rfl rfl

/-- C7: the hook's `isLoading` is the boolean OR of the entity query's loading
flag and the favorites source's loading flag. -/
theorem isLoading_is_or
    (q : QueryResult BasketballLeagueResponse)
    (uf : FavoriteFilter → UseFavoritesResult) :
    (BasketballLeagues.useBasketballLeagues q uf).isLoading =
      (q.isLoading || (uf BasketballLeagues.favoritesScope).isLoading) ∧
    ((BasketballLeagues.useBasketballLeagues q uf).isLoading = true ↔
      q.isLoading = true ∨
        (uf BasketballLeagues.favoritesScope).isLoading = true) := by
  refine ⟨rfl, ?_⟩
  simp [BasketballLeagues.useBasketballLeagues]

/-- C8: when the entity query delivers no data, the annotated list is empty
and the error fields still mirror only the entity query's own status. -/
theorem no_data_gives_empty_list
    (q : QueryResult BasketballLeagueResponse)
    (uf : FavoriteFilter → UseFavoritesResult)
    (h : q.data = none) :
    (BasketballLeagues.useBasketballLeagues q uf).leagues = [] ∧
    (BasketballLeagues.useBasketballLeagues q uf).isError = q.isError ∧
    (BasketballLeagues.useBasketballLeagues q uf).error = q.error := by
  refine ⟨?_, rfl, rfl⟩
  simp [BasketballLeagues.useBasketballLeagues, h]

/-- Witness for C8: the sample query with `data := none` yields an empty
annotated list and no error. -/
theorem no_data_gives_empty_list_witness :
    (BasketballLeagues.useBasketballLeagues emptyLeaguesQuery
      sampleUseFavoritesFn).leagues = [] ∧
    (BasketballLeagues.useBasketballLeagues emptyLeaguesQuery
      sampleUseFavoritesFn).isError = emptyLeaguesQuery.isError ∧
    (BasketballLeagues.useBasketballLeagues emptyLeaguesQuery
      sampleUseFavoritesFn).error = emptyLeaguesQuery.error :=
  no_data_gives_empty_list emptyLeaguesQuery sampleUseFavoritesFn rfl

/-- C9: the hook reads favorites only at its fixed
("sports", "basketball", "league") scope — its output depends on the
favorites source only through that scope — and every add mutation issued by
`setFavorited` carries exactly the same triple. -/
theorem favorites_scope_fixed
    (q : QueryResult BasketballLeagueResponse)
    (uf uf' : FavoriteFilter → UseFavoritesResult)
    (hsc : uf BasketballLeagues.favoritesScope =
      uf' BasketballLeagues.favoritesScope) :
    BasketballLeagues.favoritesScope =
      { category := "sports", subcategory := "basketball"
        type := "league" } ∧
    BasketballLeagues.useBasketballLeagues q uf =
      BasketballLeagues.useBasketballLeagues q uf' ∧
    ∀ (favs : List WalletFavoriteData) (leagueId : Nat) (b : Bool)
      (p : AddFavoritePayload),
      MutationCall.add p ∈ BasketballLeagues.setFavorited favs leagueId b →
      p.category = BasketballLeagues.favoritesScope.category ∧
      p.subcategory = BasketballLeagues.favoritesScope.subcategory ∧
      p.type = BasketballLeagues.favoritesScope.type := by
  refine ⟨rfl, ?_, ?_⟩
  · simp only [BasketballLeagues.useBasketballLeagues, hsc]
  · intro favs leagueId b p hp
    cases b with
    | true =>
      simp only [BasketballLeagues.setFavorited, if_true,
        List.mem_singleton, MutationCall.add.injEq] at hp
      subst hp
      exact ⟨rfl, rfl, rfl⟩
    | false =>
      rcases hfind : favs.find? (fun f => f.itemId == toString leagueId)
        with _ | g
      · simp [BasketballLeagues.setFavorited, hfind] at hp
      · simp [BasketballLeagues.setFavorited, hfind] at hp

/-- Witness for C9 at the sample query and favorites source. -/
theorem favorites_scope_fixed_witness :
    BasketballLeagues.favoritesScope =
      { category := "sports", subcategory := "basketball"
        type := "league" } ∧
    BasketballLeagues.useBasketballLeagues sampleLeaguesQuery
        sampleUseFavoritesFn =
      BasketballLeagues.useBasketballLeagues sampleLeaguesQuery
        sampleUseFavoritesFn ∧
    ∀ (favs : List WalletFavoriteData) (leagueId : Nat) (b : Bool)
      (p : AddFavoritePayload),
      MutationCall.add p ∈ BasketballLeagues.setFavorited favs leagueId b →
      p.category = BasketballLeagues.favoritesScope.category ∧
      p.subcategory = BasketballLeagues.favoritesScope.subcategory ∧
      p.type = BasketballLeagues.favoritesScope.type :=
  favorites_scope_fixed sampleLeaguesQuery sampleUseFavoritesFn
    sampleUseFavoritesFn rfl

/-- C10: with duplicate matching favorites in the snapshot,
`setFavorited(id, false)` issues exactly one remove mutation, keyed by the
first matching record in snapshot order; a later duplicate's handle is not
removed by that call. -/
theorem duplicate_favorites_remove_first_only
    (l1 l2 : List WalletFavoriteData) (f g : WalletFavoriteData)
    (leagueId : Nat)
    (hf : f.itemId = toString leagueId)
    (h1 : ∀ x ∈ l1, x.itemId ≠ toString leagueId)
    (hg : g ∈ l2) (hg2 : g.itemId = toString leagueId)
    (hne : g.id ≠ f.id) :
    BasketballLeagues.setFavorited (l1 ++ f :: l2) leagueId false =
      [MutationCall.remove f.id] ∧
    MutationCall.remove g.id ∉
      BasketballLeagues.setFavorited (l1 ++ f :: l2) leagueId false := by
  have hfind := find?_append_first_match l1 l2 f (toString leagueId) hf h1
  constructor
  · simp [BasketballLeagues.setFavorited, hfind]
  · simp [BasketballLeagues.setFavorited, hfind, hne]

/-- Witness for C10: favorites `{id := 1, itemId := "33"}` and
`{id := 2, itemId := "33"}` both present; `setFavorited 33 false` removes
handle 1 only. -/
theorem duplicate_favorites_remove_first_only_witness :
    BasketballLeagues.setFavorited
        ([] ++ sampleFavorite :: [sampleFavoriteDup]) 33 false =
      [MutationCall.remove sampleFavorite.id] ∧
    MutationCall.remove sampleFavoriteDup.id ∉
      BasketballLeagues.setFavorited
        ([] ++ sampleFavorite :: [sampleFavoriteDup]) 33 false :=
  duplicate_favorites_remove_first_only [] [sampleFavoriteDup]
    sampleFavorite sampleFavoriteDup 33 (by decide) (by decide)
    (by decide) (by decide) (by decide)
